import Mathlib

/-!
Verification of the access-control, rate-gating and store rules of the
xltableBackend service (an Express/MongoDB scheduling and bulletin-board
backend), against its natural-language specification.

The embedding is shallow: each Mongo collection is a `List` of document
structures; each request handler is a pure function from its request fields
and the current store state to the HTTP status code it answers and the state
it leaves behind.  Timestamps are milliseconds since the epoch as `Nat`.
JavaScript "falsy" string fields (`undefined` or `""`) are modelled as the
empty string; optional request fields that may be `undefined` are `Option`s
(a present-but-empty array is truthy in JS, which `Option` mirrors: only
`none` falls back through `||`).
-/

set_option autoImplicit false

namespace XlTable

/-- A stored account document (src/models/User.ts, `IUser`). -/
structure User where
  userId : String
  password : String
  email : String
  role : String
  createdAt : Nat
deriving DecidableEq, Repr

/-- A stored post document (src/models/Post.ts, `IPost`).  `oid` is the Mongo
`_id` the driver assigns at insertion. -/
structure Post where
  oid : String
  title : String
  content : String
  authorId : String
  authorEmail : String
  authorRole : String
  isNotice : Bool
  views : Nat
  createdAt : Nat
  updatedAt : Nat
deriving DecidableEq, Repr

/-- A stored comment document (src/models/Post.ts, `IComment`).  `oid` is the
Mongo `_id` the driver assigns at insertion. -/
structure Comment where
  oid : String
  postId : String
  content : String
  authorId : String
  authorRole : String
  createdAt : Nat
deriving DecidableEq, Repr

/-- The three collections the board controller touches. -/
structure BoardState where
  posts : List Post
  comments : List Comment
  users : List User
deriving DecidableEq, Repr

/-- JS `String.prototype.trim` (for the ASCII whitespace these requests
carry), computed on the character list so that concrete instances reduce. -/
def jsTrim (s : String) : String :=
  String.mk (((s.toList.dropWhile Char.isWhitespace).reverse.dropWhile Char.isWhitespace).reverse)

/-- JS `String.prototype.toLowerCase`, computed on the character list. -/
def toLowerStr (s : String) : String :=
  String.mk (s.toList.map Char.toLower)

/-- `ObjectId.isValid` of the mongodb driver: a 24-character hex string, or a
12-character string taken as raw bytes. -/
def isValidObjectId (s : String) : Bool :=
  s.length == 12 ||
    (s.length == 24 && s.toList.all (fun c => c.isDigit || "abcdefABCDEF".toList.contains c))

/-- Mongo `updateOne`: rewrite the first document matching the filter. -/
def replaceFirst {α : Type} (p : α → Bool) (f : α → α) : List α → List α
  | [] => []
  | x :: xs => if p x then f x :: xs else x :: replaceFirst p f xs

/-- Mongo `deleteOne`: remove the first document matching the filter. -/
def removeFirst {α : Type} (p : α → Bool) : List α → List α
  | [] => []
  | x :: xs => if p x then xs else x :: removeFirst p xs

/-- `.sort({createdAt: -1}).limit(1)` keeps only the newest matching
document; the cooldown test reads nothing but its `createdAt`, so the result
of the query is modelled by the maximal `createdAt` among the matches (ties
carry the same timestamp, so which tied document the store returns cannot
change the test). -/
def lastCreatedAt (times : List Nat) : Option Nat :=
  times.max?

/-- Creation time of the newest post by `uid` (boardController.ts 141-145). -/
def lastPostTime (posts : List Post) (uid : String) : Option Nat :=
  lastCreatedAt ((posts.filter (fun p => p.authorId == uid)).map (·.createdAt))

/-- Creation time of the newest comment by `uid` (boardController.ts 371-375). -/
def lastCommentTime (comments : List Comment) (uid : String) : Option Nat :=
  lastCreatedAt ((comments.filter (fun c => c.authorId == uid)).map (·.createdAt))

/-- `SPAM_PREVENTION_TIME = 60 * 1000` (one minute, in milliseconds). -/
def SPAM_PREVENTION_TIME : Nat := 60 * 1000

/-- The cooldown test `now - lastWrite.createdAt < SPAM_PREVENTION_TIME`.
Truncated `Nat` subtraction agrees with the JS signed subtraction: when the
stored timestamp exceeds `now` the JS difference is negative and passes the
`< 60000` test, and the truncated difference `0` passes it as well. -/
def rateLimited (lastTime : Option Nat) (now : Nat) : Bool :=
  match lastTime with
  | none => false
  | some t => now - t < SPAM_PREVENTION_TIME

/-- Case-insensitive substring containment on character lists. -/
def containsCC (needle : List Char) : List Char → Bool
  | [] => needle.isEmpty
  | c :: cs => needle.isPrefixOf (c :: cs) || containsCC needle cs

/-- The test `{ $regex: needle, $options: "i" }` performs on a stored string,
for the metacharacter-free `needle`s this model covers: an unanchored
case-insensitive regex whose pattern is a literal is case-insensitive
substring containment. -/
def containsCI (hay needle : String) : Bool :=
  containsCC (toLowerStr needle).toList (toLowerStr hay).toList

/-- The characters that are special in a JS regular expression.  The code
interpolates raw user input into `new RegExp(...)` without escaping, so only
inputs free of these characters denote a literal pattern; other inputs follow
JS regex semantics or make `RegExp` throw, which this model leaves undefined
(the braces are written as code points 123 and 125). -/
def regexMetaChars : List Char :=
  ['\\', '^', '$', '.', '|', '?', '*', '+', '(', ')', '[', ']',
   Char.ofNat 123, Char.ofNat 125]

/-- Whether a string contains a JS regex metacharacter. -/
def hasRegexMeta (s : String) : Bool :=
  s.toList.any (fun c => regexMetaChars.contains c)

/-- Stable insertion into a `createdAt`-descending list (newest first). -/
def insertPostByCreatedAtDesc (p : Post) : List Post → List Post
  | [] => [p]
  | x :: xs => if p.createdAt ≥ x.createdAt then p :: x :: xs else x :: insertPostByCreatedAtDesc p xs

/-- `.sort({createdAt: -1})` on posts: newest first. -/
def sortByCreatedAtDesc (l : List Post) : List Post :=
  l.foldr insertPostByCreatedAtDesc []

/-- `getPosts` (boardController.ts 14-77): `page` and `limit` arrive already
parsed (`parseInt(x) || 1` resp. `|| 10`), `search` is `""` when absent.
Non-notice posts matching the search are counted and paginated newest first
with offset `(page - 1) * limit`; matching notices are fetched separately,
newest first, prepended on page 1 only and added to the reported total there.
The result is status, posts payload and reported total.  The `$regex` filters
are built from the unescaped `search`, so a search containing a regex
metacharacter follows JS regex semantics, which this model leaves undefined
(`none`); for the other searches the filter is case-insensitive substring
containment on title or content. -/
def getPosts (page limit : Nat) (search : String) (s : BoardState) :
    Option (Nat × List Post × Nat) :=
  if search != "" && hasRegexMeta search then none
  else
    let matchesSearch := fun (p : Post) =>
      search == "" || containsCI p.title search || containsCI p.content search
    let normal := s.posts.filter (fun p => !p.isNotice && matchesSearch p)
    let notices :=
      if page == 1 then sortByCreatedAtDesc (s.posts.filter (fun p => p.isNotice && matchesSearch p))
      else []
    let total := normal.length
    let pagePosts := ((sortByCreatedAtDesc normal).drop ((page - 1) * limit)).take limit
    some (200, notices ++ pagePosts, total + (if page == 1 then notices.length else 0))

/-- The post document `createPost` inserts (boardController.ts 175-185). -/
def newPostDoc (title content userId role authorEmail newId : String) (now : Nat) : Post :=
  { oid := newId, title := title, content := content, authorId := userId,
    authorEmail := authorEmail,
    authorRole := if role == "" then "user" else role,
    isNotice := role == "superadmin",
    views := 0, createdAt := now, updatedAt := now }

/-- `getPostById` (boardController.ts 80-119): reject malformed ids, 404 when
absent, otherwise `$inc` the `views` field of the matching post by 1 and
answer 200.  A missing `postId` is the empty string, which
`isValidObjectId` already rejects. -/
def getPostById (postId : String) (s : BoardState) : Nat × BoardState :=
  if !(isValidObjectId postId) then (400, s)
  else
    match s.posts.find? (fun p => p.oid == postId) with
    | none => (404, s)
    | some _ =>
      let posts :=
        replaceFirst (fun p => p.oid == postId) (fun p => { p with views := p.views + 1 }) s.posts
      (200, { s with posts := posts })

/-- `createPost` (boardController.ts 122-198): field check, spam gate for
non-superadmin, account lookup for non-superadmin (superadmin is never in the
store and posts with an empty `authorEmail`), then insert.  `newId` is the
`_id` the driver generates at `insertOne`. -/
def createPost (title content userId role : String) (now : Nat) (newId : String)
    (s : BoardState) : Nat × BoardState :=
  if title == "" || content == "" then (400, s)
  else if role != "superadmin" && rateLimited (lastPostTime s.posts userId) now then (429, s)
  else if role == "superadmin" then
    (201, { s with posts := s.posts ++ [newPostDoc title content userId role "" newId now] })
  else
    match s.users.find? (fun u => u.userId == userId) with
    | none => (404, s)
    | some u =>
      (201, { s with posts := s.posts ++ [newPostDoc title content userId role u.email newId now] })

/-- `updatePost` (boardController.ts 201-256): only the author may edit; the
`role` field is read but never consulted by the permission check. -/
def updatePost (postId title content userId role : String) (now : Nat)
    (s : BoardState) : Nat × BoardState :=
  if !(isValidObjectId postId) then (400, s)
  else if title == "" || content == "" then (400, s)
  else
    match s.posts.find? (fun p => p.oid == postId) with
    | none => (404, s)
    | some post =>
      if post.authorId != userId then (403, s)
      else
        let posts :=
          replaceFirst (fun p => p.oid == postId)
            (fun p => { p with title := title, content := content, updatedAt := now }) s.posts
        (200, { s with posts := posts })

/-- `deletePost` (boardController.ts 259-302): author or superadmin; deleting
the post then `deleteMany`s every comment whose `postId` references it. -/
def deletePost (postId userId role : String) (s : BoardState) : Nat × BoardState :=
  if !(isValidObjectId postId) then (400, s)
  else
    match s.posts.find? (fun p => p.oid == postId) with
    | none => (404, s)
    | some post =>
      if post.authorId != userId && role != "superadmin" then (403, s)
      else
        let posts := removeFirst (fun p => p.oid == postId) s.posts
        let comments := s.comments.filter (fun c => !(c.postId == postId))
        (200, { s with posts := posts, comments := comments })

/-- Stable insertion into a `createdAt`-ascending list. -/
def insertByCreatedAt (c : Comment) : List Comment → List Comment
  | [] => [c]
  | x :: xs => if c.createdAt ≤ x.createdAt then c :: x :: xs else x :: insertByCreatedAt c xs

/-- `.sort({createdAt: 1})`: oldest comment first. -/
def sortByCreatedAtAsc (l : List Comment) : List Comment :=
  l.foldr insertByCreatedAt []

/-- `getComments` (boardController.ts 307-330): the comments whose `postId`
matches, oldest first. -/
def getComments (postId : String) (s : BoardState) : Nat × List Comment :=
  if !(isValidObjectId postId) then (400, [])
  else (200, sortByCreatedAtAsc (s.comments.filter (fun c => c.postId == postId)))

/-- The comment document `createComment` inserts (boardController.ts
391-397); `newId` is the `_id` the driver assigns at `insertOne`. -/
def newCommentDoc (postId content userId role newId : String) (now : Nat) : Comment :=
  { oid := newId, postId := postId, content := jsTrim content, authorId := userId,
    authorRole := if role == "" then "user" else role, createdAt := now }

/-- `createComment` (boardController.ts 333-410): id and content checks, 404
when the post is gone, Forbidden on a notice (before and regardless of the
spam gate), spam gate for non-superadmin, then insert.  `newId` is the `_id`
the driver generates at `insertOne`. -/
def createComment (postId content userId role : String) (now : Nat) (newId : String)
    (s : BoardState) : Nat × BoardState :=
  if !(isValidObjectId postId) then (400, s)
  else if jsTrim content == "" then (400, s)
  else
    match s.posts.find? (fun p => p.oid == postId) with
    | none => (404, s)
    | some post =>
      if post.isNotice then (403, s)
      else if role != "superadmin" && rateLimited (lastCommentTime s.comments userId) now then
        (429, s)
      else
        (201, { s with comments := s.comments ++ [newCommentDoc postId content userId role newId now] })

/-- `deleteComment` (boardController.ts 413-448): the comment's author or a
superadmin may delete it; anyone else is denied 403. -/
def deleteComment (commentId userId role : String) (s : BoardState) : Nat × BoardState :=
  if !(isValidObjectId commentId) then (400, s)
  else
    match s.comments.find? (fun c => c.oid == commentId) with
    | none => (404, s)
    | some comment =>
      if comment.authorId != userId && role != "superadmin" then (403, s)
      else (200, { s with comments := removeFirst (fun c => c.oid == commentId) s.comments })

/-- The identity `authenticate` (authMiddleware.ts) attaches after verifying
the bearer token; `none` models a missing, malformed or expired token, which
is answered 401 before any handler runs. -/
structure Auth where
  userId : String
  role : String
deriving DecidableEq, Repr

/-- `blockUserRole` (boardRoutes.ts 17-23): requests whose role is `"user"`
are rejected with 403 before any board handler runs. -/
def blockUserRole (role : String) : Bool :=
  role == "user"

/-- `GET /api/board` = authenticate, blockUserRole, getPosts.  The 401/403
answers carry no post payload; the empty list and zero stand for the absent
fields. -/
def routeGetPosts (auth : Option Auth) (page limit : Nat) (search : String)
    (s : BoardState) : Option (Nat × List Post × Nat) :=
  match auth with
  | none => some (401, [], 0)
  | some a => if blockUserRole a.role then some (403, [], 0) else getPosts page limit search s

/-- `GET /api/board/:postId` = authenticate, blockUserRole, getPostById. -/
def routeGetPostById (auth : Option Auth) (postId : String) (s : BoardState) :
    Nat × BoardState :=
  match auth with
  | none => (401, s)
  | some a => if blockUserRole a.role then (403, s) else getPostById postId s

/-- `POST /api/board` = authenticate, blockUserRole, createPost. -/
def routeCreatePost (auth : Option Auth) (title content : String) (now : Nat)
    (newId : String) (s : BoardState) : Nat × BoardState :=
  match auth with
  | none => (401, s)
  | some a => if blockUserRole a.role then (403, s)
      else createPost title content a.userId a.role now newId s

/-- `PUT /api/board/:postId` = authenticate, blockUserRole, updatePost. -/
def routeUpdatePost (auth : Option Auth) (postId title content : String) (now : Nat)
    (s : BoardState) : Nat × BoardState :=
  match auth with
  | none => (401, s)
  | some a => if blockUserRole a.role then (403, s)
      else updatePost postId title content a.userId a.role now s

/-- `DELETE /api/board/:postId` = authenticate, blockUserRole, deletePost. -/
def routeDeletePost (auth : Option Auth) (postId : String) (s : BoardState) :
    Nat × BoardState :=
  match auth with
  | none => (401, s)
  | some a => if blockUserRole a.role then (403, s) else deletePost postId a.userId a.role s

/-- `GET /api/board/:postId/comments` = authenticate, blockUserRole, getComments. -/
def routeGetComments (auth : Option Auth) (postId : String) (s : BoardState) :
    Nat × List Comment :=
  match auth with
  | none => (401, [])
  | some a => if blockUserRole a.role then (403, []) else getComments postId s

/-- `POST /api/board/:postId/comments` = authenticate, blockUserRole, createComment. -/
def routeCreateComment (auth : Option Auth) (postId content : String) (now : Nat)
    (newId : String) (s : BoardState) : Nat × BoardState :=
  match auth with
  | none => (401, s)
  | some a => if blockUserRole a.role then (403, s)
      else createComment postId content a.userId a.role now newId s

/-- `DELETE /api/board/comments/:commentId` = authenticate, blockUserRole,
deleteComment. -/
def routeDeleteComment (auth : Option Auth) (commentId : String) (s : BoardState) :
    Nat × BoardState :=
  match auth with
  | none => (401, s)
  | some a => if blockUserRole a.role then (403, s) else deleteComment commentId a.userId a.role s

/-- A cell of the sheet grid (src/models/Schedule.ts, `ICellData`). -/
structure CellData where
  text : String
  bold : Option Bool
  lineThrough : Option Bool
  fontSize : Option Nat
  bgColor : Option String
deriving DecidableEq, Repr

/-- A merged block of cells (src/models/Schedule.ts, `IMergedBlock`). -/
structure MergedBlock where
  day : String
  colIdx : Nat
  startRow : Nat
  endRow : Nat
deriving DecidableEq, Repr

/-- A stored sheet document (src/models/Schedule.ts, `IScheduleDocument`).
`dayDates` is an optional field of the document; the `Record<string,string>`
maps are association lists. -/
structure Schedule where
  userId : String
  sheetName : String
  title : String
  numOfTeachers : String
  selectedDays : List String
  startTime : String
  endTime : String
  interval : String
  teacherNames : List String
  teacherUserIds : List String
  dayDates : Option (List (String × String))
  cellTexts : List (String × CellData)
  mergedBlocks : List MergedBlock
  viewMode : String
  createdAt : Nat
  updatedAt : Nat
deriving DecidableEq, Repr

/-- The `settings` object of a schedule request body.  `teacherUserIds` and
`dayDates` may be absent (`undefined`); a present-but-empty array or map is
truthy in JS and therefore `some`. -/
structure SettingsReq where
  title : String
  numOfTeachers : String
  selectedDays : List String
  startTime : String
  endTime : String
  interval : String
  teacherNames : List String
  teacherUserIds : Option (List String)
  dayDates : Option (List (String × String))
deriving DecidableEq, Repr

/-- The `data` object of a schedule request body. -/
structure DataReq where
  cellTexts : Option (List (String × CellData))
  mergedBlocks : Option (List MergedBlock)
  viewMode : Option String
deriving DecidableEq, Repr

/-- JS `parseInt` on the strings this route receives: the longest leading
digit run; `none` when there is none, in which case `parseInt` yields `NaN`
and `Array(NaN).fill("")` throws, surfacing as the catch-all 500 branch. -/
def parseIntNat (s : String) : Option Nat :=
  let ds := s.toList.takeWhile Char.isDigit
  if ds.isEmpty then none
  else some (ds.foldl (fun n c => n * 10 + (c.toNat - Char.toNat (Char.ofNat 48))) 0)

/-- `createSchedule` (scheduleController, lines 51-132): admin only; 409 when
the owner already has the `sheetName`; then the title-duplicate test, which
matches stored titles against `new RegExp("^" + normalizedTitle + "$", "i")`
where `normalizedTitle` is the trimmed, lowercased new title interpolated
WITHOUT escaping.  When `normalizedTitle` is free of regex metacharacters
that regex is the literal anchored pattern, i.e. case-insensitive string
equality, which is what this definition computes; when it contains a
metacharacter the regex follows JS regex semantics (duplicate titles such as
`"a+b"` can slip through, and an invalid pattern such as `"((("` makes
`RegExp` throw into the 500 branch), which this model does not define:
`none`.  The `sheetName` duplicate answer comes first in the code, before the
regex is ever built, so it is defined for every title.  On success the
inserted document's `teacherUserIds` is `numOfTeachers` empty strings. -/
def createSchedule (userId role sheetName : String) (settings : Option SettingsReq)
    (data : Option DataReq) (now : Nat) (store : List Schedule) :
    Option (Nat × List Schedule) :=
  if userId == "" then some (401, store)
  else if role != "admin" then some (403, store)
  else
    match settings, data with
    | some st, some d =>
      if sheetName == "" then some (400, store)
      else if (store.find? (fun sc => sc.userId == userId && sc.sheetName == sheetName)).isSome
        then some (409, store)
      else
        let normalizedTitle := toLowerStr (jsTrim st.title)
        if hasRegexMeta normalizedTitle then none
        else if (store.find? (fun sc => sc.userId == userId && toLowerStr sc.title == normalizedTitle)).isSome
          then some (409, store)
        else
          match parseIntNat st.numOfTeachers with
          | none => some (500, store)
          | some n =>
            let doc : Schedule :=
              { userId := userId, sheetName := sheetName, title := st.title,
                numOfTeachers := st.numOfTeachers, selectedDays := st.selectedDays,
                startTime := st.startTime, endTime := st.endTime, interval := st.interval,
                teacherNames := st.teacherNames,
                teacherUserIds := List.replicate n "",
                dayDates := some (st.dayDates.getD []),
                cellTexts := d.cellTexts.getD [], mergedBlocks := d.mergedBlocks.getD [],
                viewMode := d.viewMode.getD "byDay",
                createdAt := now, updatedAt := now }
            some (201, store ++ [doc])
    | _, _ => some (400, store)

/-- The `$set` document `updateSchedule` builds (scheduleController, lines
169-183): every mutable field is replaced from the request, except that an
omitted `teacherUserIds` falls back to the stored sequence and an omitted
`dayDates` falls back to the stored map (or `{}`); `userId`, `sheetName` and
`createdAt` are not in the `$set` and stay as stored. -/
def applyScheduleUpdate (st : SettingsReq) (d : DataReq) (now : Nat)
    (existing : Schedule) (sc : Schedule) : Schedule :=
  { sc with
    title := st.title, numOfTeachers := st.numOfTeachers,
    selectedDays := st.selectedDays, startTime := st.startTime,
    endTime := st.endTime, interval := st.interval,
    teacherNames := st.teacherNames,
    teacherUserIds := st.teacherUserIds.getD existing.teacherUserIds,
    dayDates := some (st.dayDates.getD (existing.dayDates.getD [])),
    cellTexts := d.cellTexts.getD [], mergedBlocks := d.mergedBlocks.getD [],
    viewMode := d.viewMode.getD "byDay", updatedAt := now }

/-- `updateSchedule` (scheduleController, lines 135-198): the teacher role is
denied; the sheet is looked up by the ACTOR's own `userId` plus `sheetName`
(so a superadmin never finds another admin's sheet); 404 when absent;
otherwise `updateOne` with the `$set` document above.  The filter of the
`updateOne` is the same as the `findOne`'s, so the first matching document is
the fetched `existing` one. -/
def updateSchedule (userId role sheetName : String) (settings : Option SettingsReq)
    (data : Option DataReq) (now : Nat) (store : List Schedule) : Nat × List Schedule :=
  if userId == "" then (401, store)
  else if role == "user" then (403, store)
  else
    match settings, data with
    | some st, some d =>
      match store.find? (fun sc => sc.userId == userId && sc.sheetName == sheetName) with
      | none => (404, store)
      | some existing =>
        let store' :=
          replaceFirst (fun sc => sc.userId == userId && sc.sheetName == sheetName)
            (applyScheduleUpdate st d now existing) store
        (200, store')
    | _, _ => (400, store)

/-! ### Concrete fixtures used by the claim witnesses and counterexamples -/

/-- Fixture for the C4 witness: one stored post with a well-formed id. -/
def c4Post : Post :=
  { oid := "aaaaaaaaaaaa", title := "t", content := "c", authorId := "t1",
    authorEmail := "e", authorRole := "user", isNotice := false, views := 3,
    createdAt := 100, updatedAt := 100 }

def c4State : BoardState :=
  { posts := [c4Post], comments := [], users := [] }

/-- Fixture for the C5 witness: one stored notice post. -/
def c5Post : Post :=
  { oid := "cccccccccccc", title := "t", content := "c", authorId := "t1",
    authorEmail := "e", authorRole := "user", isNotice := true, views := 0,
    createdAt := 0, updatedAt := 0 }

def c5State : BoardState :=
  { posts := [c5Post], comments := [], users := [] }

/-- Fixture for C1: a post authored by the teacher account `t1`. -/
def c1Post : Post :=
  { oid := "aaaaaaaaaaaa", title := "t", content := "c", authorId := "t1",
    authorEmail := "e", authorRole := "user", isNotice := false, views := 0,
    createdAt := 0, updatedAt := 0 }

def c1State : BoardState :=
  { posts := [c1Post], comments := [], users := [] }

/-- Further C1 fixture: the teacher `t1` also owns a comment, so the witness
can exercise the denial on deleting one's own comment. -/
def c1CommentOwn : Comment :=
  { oid := "eeeeeeeeeeee", postId := "aaaaaaaaaaaa", content := "mine",
    authorId := "t1", authorRole := "user", createdAt := 5 }

def c1StateB : BoardState :=
  { posts := [c1Post], comments := [c1CommentOwn], users := [] }

/-- Fixture for C2: a sheet owned by the admin account `adminA`. -/
def c2Sheet : Schedule :=
  { userId := "adminA", sheetName := "s1", title := "T",
    numOfTeachers := "1", selectedDays := ["Mon"], startTime := "9", endTime := "18",
    interval := "30", teacherNames := ["A"], teacherUserIds := [""], dayDates := none,
    cellTexts := [], mergedBlocks := [], viewMode := "byDay", createdAt := 0, updatedAt := 0 }

def c2Settings : SettingsReq :=
  { title := "T", numOfTeachers := "1", selectedDays := ["Mon"],
    startTime := "9", endTime := "18", interval := "30", teacherNames := ["A"],
    teacherUserIds := none, dayDates := none }

def c2Data : DataReq :=
  { cellTexts := none, mergedBlocks := none, viewMode := none }

/-- Fixture for C6: a post authored by `t1`. -/
def c6Post : Post :=
  { oid := "dddddddddddd", title := "t", content := "c", authorId := "t1",
    authorEmail := "e", authorRole := "admin", isNotice := false, views := 0,
    createdAt := 0, updatedAt := 0 }

def c6State : BoardState :=
  { posts := [c6Post], comments := [], users := [] }

/-- Fixture for C7: a post by `t1` carrying two comments by other actors. -/
def c7Post : Post :=
  { oid := "ffffffffffff", title := "t", content := "c", authorId := "t1",
    authorEmail := "e", authorRole := "user", isNotice := false, views := 0,
    createdAt := 0, updatedAt := 0 }

def c7State : BoardState :=
  { posts := [c7Post],
    comments := [{ oid := "f1f1f1f1f1f1", postId := "ffffffffffff", content := "a",
                   authorId := "u2", authorRole := "admin", createdAt := 10 },
                 { oid := "f2f2f2f2f2f2", postId := "ffffffffffff", content := "b",
                   authorId := "u3", authorRole := "user", createdAt := 20 }],
    users := [] }

/-- Fixtures for the C3 witness: the account `u1` has a post and a comment
both created at time 100; the post is also the comment target. -/
def c3Post : Post :=
  { oid := "aaaaaaaaaaaa", title := "t0", content := "c0", authorId := "u1",
    authorEmail := "m", authorRole := "user", isNotice := false, views := 0,
    createdAt := 100, updatedAt := 100 }

def c3Comment : Comment :=
  { oid := "a1a1a1a1a1a1", postId := "aaaaaaaaaaaa", content := "x", authorId := "u1",
    authorRole := "user", createdAt := 100 }

def c3User : User :=
  { userId := "u1", password := "p", email := "m", role := "user", createdAt := 0 }

def c3State : BoardState :=
  { posts := [c3Post], comments := [c3Comment], users := [c3User] }

/-- Fixtures for C8: the owner `a1` already stores a sheet whose title is
`"x "` (note the trailing blank), and requests a new sheet under a fresh
`sheetName` with the very same title `"x "`. -/
def c8Sheet : Schedule :=
  { userId := "a1", sheetName := "s1", title := "x ",
    numOfTeachers := "1", selectedDays := ["Mon"], startTime := "9", endTime := "18",
    interval := "30", teacherNames := ["A"], teacherUserIds := [""], dayDates := none,
    cellTexts := [], mergedBlocks := [], viewMode := "byDay", createdAt := 0, updatedAt := 0 }

def c8Settings : SettingsReq :=
  { title := "x ", numOfTeachers := "1", selectedDays := ["Mon"],
    startTime := "9", endTime := "18", interval := "30", teacherNames := ["A"],
    teacherUserIds := none, dayDates := none }

def c8Data : DataReq :=
  { cellTexts := none, mergedBlocks := none, viewMode := none }

/-- Fixtures for the C9 witness: a stored sheet with a non-trivial roster and
day map, updated by its owner with a request omitting both. -/
def c9Sheet : Schedule :=
  { userId := "a1", sheetName := "s1", title := "T",
    numOfTeachers := "2", selectedDays := ["Mon"], startTime := "9", endTime := "18",
    interval := "30", teacherNames := ["A", "B"], teacherUserIds := ["t1", "t2"],
    dayDates := some [("Mon", "1/26")],
    cellTexts := [], mergedBlocks := [], viewMode := "byDay", createdAt := 0, updatedAt := 0 }

def c9Settings : SettingsReq :=
  { title := "T2", numOfTeachers := "2", selectedDays := ["Mon", "Tue"],
    startTime := "8", endTime := "19", interval := "60", teacherNames := ["A", "B"],
    teacherUserIds := none, dayDates := none }

def c9Data : DataReq :=
  { cellTexts := none, mergedBlocks := none, viewMode := none }

/-- Fixture for the C10 witness: an empty store — the actor `ghost` holds an
authenticated identity but no account document. -/
def c10State : BoardState :=
  { posts := [], comments := [], users := [] }

/-! ### Store lemmas -/

theorem replaceFirst_find? {α : Type} (p : α → Bool) (f : α → α)
    (hpf : ∀ x, p (f x) = p x) (l : List α) :
    (replaceFirst p f l).find? p = (l.find? p).map f := by
  induction l with
  | nil => rfl
  | cons x xs ih =>
    by_cases hx : p x = true
    · simp [replaceFirst, hx, List.find?_cons_of_pos, hpf]
    · rw [Bool.not_eq_true] at hx
      simp [replaceFirst, hx, List.find?_cons_of_neg, ih]

theorem mem_replaceFirst {α : Type} (p : α → Bool) (f : α → α) (l : List α) (a : α)
    (ha : a ∈ l) (hpa : p a = false) : a ∈ replaceFirst p f l := by
  induction l with
  | nil => cases ha
  | cons x xs ih =>
    rcases List.mem_cons.mp ha with rfl | hmem
    · simp [replaceFirst, hpa]
    · by_cases hx : p x = true
      · simp [replaceFirst, hx, List.mem_cons, hmem]
      · rw [Bool.not_eq_true] at hx
        simp only [replaceFirst, hx, if_neg]
        exact List.mem_cons.mpr (Or.inr (ih hmem))

theorem filter_after_filter_not {α : Type} (p : α → Bool) (l : List α) :
    (l.filter (fun a => !(p a))).filter p = [] := by
  induction l with
  | nil => rfl
  | cons x xs ih =>
    by_cases hx : p x = true
    · simp [List.filter, hx, ih]
    · rw [Bool.not_eq_true] at hx
      simp [List.filter, hx, ih]

/-! ### C4 — `getById` -/

/-- C4 (counterexample): the claim says `getById` fails with NotFound when
the id is malformed; on the malformed id `"#!"` the code answers 400
(validation), not 404. -/
theorem claim4_counterexample :
    (getPostById "#!" { posts := [], comments := [], users := [] }).1 = 400 ∧
    (getPostById "#!" { posts := [], comments := [], users := [] }).1 ≠ 404 := by
  constructor <;> decide

/-- C4 (amended): a malformed id is answered 400 (validation error), not
NotFound; a well-formed id with no matching post is answered 404; when the
post exists the call answers 200 and increments exactly that post's `views`
by 1 — the handler reads no actor identity at all, every other post and the
remaining collections are untouched, and nothing deduplicates repeated
reads. -/
theorem claim4_getById (postId : String) (s : BoardState) :
    (isValidObjectId postId = false → getPostById postId s = (400, s)) ∧
    (isValidObjectId postId = true →
      s.posts.find? (fun p => p.oid == postId) = none → getPostById postId s = (404, s)) ∧
    (∀ post, isValidObjectId postId = true →
      s.posts.find? (fun p => p.oid == postId) = some post →
      (getPostById postId s).1 = 200 ∧
      (getPostById postId s).2.posts.find? (fun p => p.oid == postId)
        = some { post with views := post.views + 1 } ∧
      (getPostById postId s).2.comments = s.comments ∧
      (getPostById postId s).2.users = s.users ∧
      ∀ q ∈ s.posts, (q.oid == postId) = false → q ∈ (getPostById postId s).2.posts) := by
  refine ⟨fun hv => ?_, fun hv hn => ?_, fun post hv hf => ?_⟩
  · simp [getPostById, hv]
  · simp [getPostById, hv, hn]
  · have h200 : getPostById postId s = (200, { s with posts := replaceFirst (fun p => p.oid == postId) (fun p => { p with views := p.views + 1 }) s.posts }) := by
      simp [getPostById, hv, hf]
    refine ⟨by rw [h200], ?_, by rw [h200], by rw [h200], ?_⟩
    · rw [h200]
      have := replaceFirst_find? (fun p : Post => p.oid == postId)
        (fun p => { p with views := p.views + 1 }) (fun _ => rfl) s.posts
      simpa [hf] using this
    · intro q hq hqp
      rw [h200]
      exact mem_replaceFirst _ _ _ _ hq hqp

/-- C4 (witness): reading the stored post answers 200. -/
theorem claim4_witness :
    (getPostById "aaaaaaaaaaaa" c4State).1 = 200 :=
  ((claim4_getById "aaaaaaaaaaaa" c4State).2.2 c4Post (by decide) (by decide)).1

/-! ### C5 — commenting on a notice -/

/-- C5 (confirmed): for every actor and role — superadmin included — a
well-formed comment request against an existing post with `isNotice = true`
is answered 403 Forbidden and the whole state, the comment collection
included, is left unchanged; the notice test precedes the rate gate and
ignores the role. -/
theorem claim5_notice_comment_forbidden (postId content userId role : String)
    (now : Nat) (newId : String) (s : BoardState) (post : Post)
    (hv : isValidObjectId postId = true)
    (hc : (jsTrim content == "") = false)
    (hf : s.posts.find? (fun p => p.oid == postId) = some post)
    (hn : post.isNotice = true) :
    createComment postId content userId role now newId s = (403, s) := by
  simp [createComment, hv, hc, hf, hn]

/-- C5 (witness): a superadmin commenting on a notice is denied 403. -/
theorem claim5_witness :
    createComment "cccccccccccc" "hey" "root" "superadmin" 999 "b0b0b0b0b0b0" c5State
      = (403, c5State) :=
  claim5_notice_comment_forbidden "cccccccccccc" "hey" "root" "superadmin" 999 "b0b0b0b0b0b0"
    c5State c5Post (by decide) (by decide) (by decide) (by decide)

/-! ### C1 — teacher access to the board -/

/-- C1 (counterexample): the claim says the board handlers never deny a
teacher an operation on their own content solely because of their role; but
`blockUserRole` answers 403 to the teacher `t1` editing their own post, while
the identical request under role `admin` succeeds — the denial is purely
role-based. -/
theorem claim1_counterexample :
    routeUpdatePost (some { userId := "t1", role := "user" }) "aaaaaaaaaaaa" "t2" "c2" 1 c1State
      = (403, c1State) ∧
    (routeUpdatePost (some { userId := "t1", role := "admin" }) "aaaaaaaaaaaa" "t2" "c2" 1 c1State).1
      = 200 := by
  constructor <;> decide

/-- C1 (amended): far from having board access identical to admin for own
content, an authenticated actor with role `user` (teacher) is denied every
one of the eight board operations — post list, post read, post create, post
update, post delete, comment list, comment create and comment delete — with
403 by the router's `blockUserRole` middleware, before any handler or
ownership check runs, and no state changes. -/
theorem claim1_amended (a : Auth) (h : a.role = "user")
    (postId title content commentId : String) (page limit : Nat) (search : String)
    (now : Nat) (newId : String) (s : BoardState) :
    routeGetPosts (some a) page limit search s = some (403, [], 0) ∧
    routeGetPostById (some a) postId s = (403, s) ∧
    routeCreatePost (some a) title content now newId s = (403, s) ∧
    routeUpdatePost (some a) postId title content now s = (403, s) ∧
    routeDeletePost (some a) postId s = (403, s) ∧
    routeGetComments (some a) postId s = (403, []) ∧
    routeCreateComment (some a) postId content now newId s = (403, s) ∧
    routeDeleteComment (some a) commentId s = (403, s) := by
  simp [routeGetPosts, routeGetPostById, routeCreatePost, routeUpdatePost, routeDeletePost,
    routeGetComments, routeCreateComment, routeDeleteComment, blockUserRole, h]

/-- C1 (witness): the teacher `t1` is denied 403 on the post list, on
creating a post, on editing their own post, and on deleting their own
comment. -/
theorem claim1_witness :
    routeGetPosts (some { userId := "t1", role := "user" }) 1 10 "" c1StateB
      = some (403, [], 0) ∧
    routeCreatePost (some { userId := "t1", role := "user" }) "t2" "c2" 1 "bbbbbbbbbbbb" c1StateB
      = (403, c1StateB) ∧
    routeUpdatePost (some { userId := "t1", role := "user" }) "aaaaaaaaaaaa" "t2" "c2" 1 c1StateB
      = (403, c1StateB) ∧
    routeDeleteComment (some { userId := "t1", role := "user" }) "eeeeeeeeeeee" c1StateB
      = (403, c1StateB) := by
  have h := claim1_amended { userId := "t1", role := "user" } rfl
    "aaaaaaaaaaaa" "t2" "c2" "eeeeeeeeeeee" 1 10 "" 1 "bbbbbbbbbbbb" c1StateB
  exact ⟨h.1, h.2.2.1, h.2.2.2.1, h.2.2.2.2.2.2.2⟩

/-! ### C2 — superadmin and the schedule ownership lookup -/

/-- C2 (counterexample): the claim says a superadmin's schedule update on any
existing sheet is never rejected as NotFound merely because the sheet belongs
to a different owner; but the superadmin `root` updating `adminA`'s existing
sheet `s1` is answered 404, because the lookup keys on the actor's own
`userId`. -/
theorem claim2_counterexample :
    updateSchedule "root" "superadmin" "s1" (some c2Settings) (some c2Data) 5 [c2Sheet]
      = (404, [c2Sheet]) := by
  decide

/-- C2 (amended): the role check of schedule update denies exactly the `user`
role, so a superadmin passes it; but the sheet lookup filters on the ACTOR's
own `userId` together with `sheetName`, so a superadmin updating a sheet it
does not own itself finds nothing and is answered 404 with the store
unchanged. Role `user` is always denied 403. -/
theorem claim2_amended (userId sheetName : String) (st : SettingsReq) (d : DataReq)
    (now : Nat) (store : List Schedule) (hu : (userId == "") = false) :
    (updateSchedule userId "user" sheetName (some st) (some d) now store = (403, store)) ∧
    (store.find? (fun sc => sc.userId == userId && sc.sheetName == sheetName) = none →
      updateSchedule userId "superadmin" sheetName (some st) (some d) now store
        = (404, store)) := by
  constructor
  · simp [updateSchedule, hu]
  · intro hfind
    simp [updateSchedule, hu, hfind]

/-- C2 (witness). -/
theorem claim2_witness :
    updateSchedule "root" "user" "s1" (some c2Settings) (some c2Data) 5 [c2Sheet]
      = (403, [c2Sheet]) ∧
    updateSchedule "root" "superadmin" "s0" (some c2Settings) (some c2Data) 5 [c2Sheet]
      = (404, [c2Sheet]) :=
  ⟨(claim2_amended "root" "s1" c2Settings c2Data 5 [c2Sheet] (by decide)).1,
   (claim2_amended "root" "s0" c2Settings c2Data 5 [c2Sheet] (by decide)).2 (by decide)⟩

/-! ### C6 — post update is strictly author-only -/

/-- C6 (confirmed): for every existing post, an update request whose actor id
differs from the post's `authorId` is rejected 403 with the whole state
unchanged, whatever the role — the permission check never reads the role, so
this includes superadmin; the author's update with non-empty title and
content replaces exactly title, content and `updatedAt` of that post. -/
theorem claim6_update_author_only (postId title content userId role : String)
    (now : Nat) (s : BoardState) (post : Post)
    (hv : isValidObjectId postId = true)
    (ht : (title == "") = false) (hc : (content == "") = false)
    (hf : s.posts.find? (fun p => p.oid == postId) = some post) :
    ((post.authorId == userId) = false →
      updatePost postId title content userId role now s = (403, s)) ∧
    (post.authorId = userId →
      (updatePost postId title content userId role now s).1 = 200 ∧
      (updatePost postId title content userId role now s).2.posts.find?
          (fun p => p.oid == postId)
        = some { post with title := title, content := content, updatedAt := now }) := by
  constructor
  · intro hne
    simp [updatePost, hv, ht, hc, hf, hne]
    exact ne_of_beq_false hne
  · intro heq
    have h200 : updatePost postId title content userId role now s = (200, { s with posts := replaceFirst (fun p => p.oid == postId) (fun p => { p with title := title, content := content, updatedAt := now }) s.posts }) := by
      simp [updatePost, hv, ht, hc, hf, heq]
    refine ⟨by rw [h200], ?_⟩
    rw [h200]
    have := replaceFirst_find? (fun p : Post => p.oid == postId)
      (fun p => { p with title := title, content := content, updatedAt := now })
      (fun _ => rfl) s.posts
    simpa [hf] using this

/-- C6 (witness): a superadmin who is not the author is denied 403. -/
theorem claim6_witness :
    updatePost "dddddddddddd" "t2" "c2" "root" "superadmin" 9 c6State = (403, c6State) :=
  (claim6_update_author_only "dddddddddddd" "t2" "c2" "root" "superadmin" 9 c6State c6Post
    (by decide) (by decide) (by decide) (by decide)).1 (by decide)

/-! ### C7 — post deletion cascades to its comments -/

/-- C7 (confirmed): deleting an existing post is allowed exactly for its
author or a superadmin (anyone else is denied 403 with the state unchanged);
a successful delete answers 200 and removes every comment referencing the
post, so listing the comments of that `postId` afterwards answers the empty
collection. -/
theorem claim7_delete_cascades (postId userId role : String)
    (s : BoardState) (post : Post)
    (hv : isValidObjectId postId = true)
    (hf : s.posts.find? (fun p => p.oid == postId) = some post) :
    ((post.authorId == userId) = false → (role == "superadmin") = false →
      deletePost postId userId role s = (403, s)) ∧
    (post.authorId = userId ∨ role = "superadmin" →
      (deletePost postId userId role s).1 = 200 ∧
      getComments postId (deletePost postId userId role s).2 = (200, [])) := by
  constructor
  · intro hne hrole
    simp [deletePost, hv, hf, hne, hrole]
    exact ⟨ne_of_beq_false hne, ne_of_beq_false hrole⟩
  · intro hok
    have hcond : (post.authorId != userId && role != "superadmin") = false := by
      rcases hok with h | h <;> simp [h]
    have h200 : deletePost postId userId role s = (200, { s with posts := removeFirst (fun p => p.oid == postId) s.posts, comments := s.comments.filter (fun c => !(c.postId == postId)) }) := by
      simp only [deletePost, hv, Bool.not_true, Bool.false_eq_true, if_false, hf, hcond]
    refine ⟨by rw [h200], ?_⟩
    rw [h200]
    simp [getComments, hv, filter_after_filter_not, sortByCreatedAtAsc]

/-- C7 (witness): after the superadmin deletes the post, its comment list is
empty. -/
theorem claim7_witness :
    (deletePost "ffffffffffff" "root" "superadmin" c7State).1 = 200 ∧
    getComments "ffffffffffff" (deletePost "ffffffffffff" "root" "superadmin" c7State).2
      = (200, []) :=
  (claim7_delete_cascades "ffffffffffff" "root" "superadmin" c7State c7Post
    (by decide) (by decide)).2 (Or.inr rfl)

/-! ### C3 — the spam-prevention rate gate -/

/-- C3 (confirmed): for a non-superadmin actor with a well-formed request, a
post (resp. comment) written strictly less than the 60 s cooldown after that
actor's most recent post (resp. comment) is answered 429 with nothing
inserted; once at least the cooldown has elapsed since the most recent write
(and the account resp. target post exists), creation succeeds and appends the
new document; a superadmin's write is never answered 429, whatever the
timing. -/
theorem claim3_rate_gate :
    (∀ title content userId role now t newId s,
      (role == "superadmin") = false → (title == "") = false → (content == "") = false →
      lastPostTime s.posts userId = some t → now - t < SPAM_PREVENTION_TIME →
      createPost title content userId role now newId s = (429, s)) ∧
    (∀ title content userId role now t newId s u,
      (role == "superadmin") = false → (title == "") = false → (content == "") = false →
      lastPostTime s.posts userId = some t → SPAM_PREVENTION_TIME ≤ now - t →
      s.users.find? (fun v => v.userId == userId) = some u →
      createPost title content userId role now newId s
        = (201, { s with posts := s.posts ++ [newPostDoc title content userId role u.email newId now] })) ∧
    (∀ title content userId now newId s,
      (createPost title content userId "superadmin" now newId s).1 ≠ 429) ∧
    (∀ postId content userId role now t newId s post,
      (role == "superadmin") = false → isValidObjectId postId = true →
      (jsTrim content == "") = false →
      s.posts.find? (fun p => p.oid == postId) = some post → post.isNotice = false →
      lastCommentTime s.comments userId = some t → now - t < SPAM_PREVENTION_TIME →
      createComment postId content userId role now newId s = (429, s)) ∧
    (∀ postId content userId role now t newId s post,
      (role == "superadmin") = false → isValidObjectId postId = true →
      (jsTrim content == "") = false →
      s.posts.find? (fun p => p.oid == postId) = some post → post.isNotice = false →
      lastCommentTime s.comments userId = some t → SPAM_PREVENTION_TIME ≤ now - t →
      createComment postId content userId role now newId s
        = (201, { s with comments := s.comments ++ [newCommentDoc postId content userId role newId now] })) ∧
    (∀ postId content userId now newId s,
      (createComment postId content userId "superadmin" now newId s).1 ≠ 429) := by
  refine ⟨?_, ?_, ?_, ?_, ?_, ?_⟩
  · intro title content userId role now t newId s hrole ht hc hlast hlt
    have hrole' : role ≠ "superadmin" := ne_of_beq_false hrole
    simp [createPost, ht, hc, hrole, hrole', rateLimited, hlast, hlt]
  · intro title content userId role now t newId s u hrole ht hc hlast hge huser
    have hnl : ¬(now - t < SPAM_PREVENTION_TIME) := Nat.not_lt.mpr hge
    have hrole' : role ≠ "superadmin" := ne_of_beq_false hrole
    simp [createPost, ht, hc, hrole, hrole', rateLimited, hlast, hnl, huser]
  · intro title content userId now newId s
    by_cases h : (title == "" || content == "") = true
    · simp [createPost, h]
    · rw [Bool.not_eq_true] at h
      simp [createPost, h]
  · intro postId content userId role now t newId s post hrole hv hc hf hn hlast hlt
    have hrole' : role ≠ "superadmin" := ne_of_beq_false hrole
    simp [createComment, hv, hc, hf, hn, hrole, hrole', rateLimited, hlast, hlt]
  · intro postId content userId role now t newId s post hrole hv hc hf hn hlast hge
    have hnl : ¬(now - t < SPAM_PREVENTION_TIME) := Nat.not_lt.mpr hge
    have hrole' : role ≠ "superadmin" := ne_of_beq_false hrole
    simp [createComment, hv, hc, hf, hn, hrole, hrole', rateLimited, hlast, hnl]
  · intro postId content userId now newId s
    by_cases hv : isValidObjectId postId = true
    · by_cases hc : (jsTrim content == "") = true
      · simp [createComment, hv, hc]
      · rw [Bool.not_eq_true] at hc
        rcases hfind : s.posts.find? (fun p => p.oid == postId) with _ | post
        · simp [createComment, hv, hc, hfind]
        · by_cases hn : post.isNotice = true
          · simp [createComment, hv, hc, hfind, hn]
          · rw [Bool.not_eq_true] at hn
            simp [createComment, hv, hc, hfind, hn]
    · rw [Bool.not_eq_true] at hv
      simp [createComment, hv]

/-- C3 (witness): at time 150 (50 ms after the last write) `u1`'s post and
comment are both answered 429 with the state unchanged; at time 60100
(exactly the cooldown later) both succeed; a superadmin at time 150 is not
rate limited on either path. -/
theorem claim3_witness :
    createPost "t" "c" "u1" "user" 150 "bbbbbbbbbbbb" c3State = (429, c3State) ∧
    createPost "t" "c" "u1" "user" 60100 "bbbbbbbbbbbb" c3State
      = (201, { c3State with
          posts := c3State.posts ++ [newPostDoc "t" "c" "u1" "user" "m" "bbbbbbbbbbbb" 60100] }) ∧
    (createPost "t" "c" "u1" "superadmin" 150 "bbbbbbbbbbbb" c3State).1 ≠ 429 ∧
    createComment "aaaaaaaaaaaa" "hi" "u1" "user" 150 "a2a2a2a2a2a2" c3State
      = (429, c3State) ∧
    createComment "aaaaaaaaaaaa" "hi" "u1" "user" 60100 "a2a2a2a2a2a2" c3State
      = (201, { c3State with
          comments := c3State.comments
            ++ [newCommentDoc "aaaaaaaaaaaa" "hi" "u1" "user" "a2a2a2a2a2a2" 60100] }) ∧
    (createComment "aaaaaaaaaaaa" "hi" "u1" "superadmin" 150 "a2a2a2a2a2a2" c3State).1 ≠ 429 :=
  ⟨claim3_rate_gate.1 "t" "c" "u1" "user" 150 100 "bbbbbbbbbbbb" c3State
      (by decide) (by decide) (by decide) (by decide) (by decide),
   claim3_rate_gate.2.1 "t" "c" "u1" "user" 60100 100 "bbbbbbbbbbbb" c3State c3User
      (by decide) (by decide) (by decide) (by decide) (by decide) (by decide),
   claim3_rate_gate.2.2.1 "t" "c" "u1" 150 "bbbbbbbbbbbb" c3State,
   claim3_rate_gate.2.2.2.1 "aaaaaaaaaaaa" "hi" "u1" "user" 150 100 "a2a2a2a2a2a2" c3State c3Post
      (by decide) (by decide) (by decide) (by decide) (by decide) (by decide) (by decide),
   claim3_rate_gate.2.2.2.2.1 "aaaaaaaaaaaa" "hi" "u1" "user" 60100 100 "a2a2a2a2a2a2" c3State c3Post
      (by decide) (by decide) (by decide) (by decide) (by decide) (by decide) (by decide),
   claim3_rate_gate.2.2.2.2.2 "aaaaaaaaaaaa" "hi" "u1" 150 "a2a2a2a2a2a2" c3State⟩

/-! ### C8 — duplicate detection at sheet creation -/

/-- C8 (counterexample): the claim says creation is rejected with Conflict
whenever the owner already has a sheet whose title equals the new title under
case-insensitive comparison; here the stored and requested titles are
literally equal (`"x "`), yet creation is answered 201 and a document is
inserted, because the duplicate check compares stored titles against the
TRIMMED new title (`"x"`). -/
theorem claim8_counterexample :
    c8Sheet.title = c8Settings.title ∧
    (createSchedule "a1" "admin" "s2" (some c8Settings) (some c8Data) 5 [c8Sheet]).map
        (fun r => r.1) = some 201 ∧
    (createSchedule "a1" "admin" "s2" (some c8Settings) (some c8Data) 5 [c8Sheet]).map
        (fun r => r.1) ≠ some 409 ∧
    (createSchedule "a1" "admin" "s2" (some c8Settings) (some c8Data) 5 [c8Sheet]).map
        (fun r => r.2.length) = some 2 := by
  refine ⟨rfl, ?_, ?_, ?_⟩ <;> decide

/-- C8 (amended): sheet creation by an admin with well-formed fields is
answered 409 Conflict with nothing inserted when the owner already stores the
requested `sheetName` (this answer precedes the title test, so it holds for
every title); and, provided the trimmed lowercased new title is free of regex
metacharacters — the code interpolates it unescaped into an anchored
case-insensitive regex, so only then does that regex mean literal
case-insensitive equality — also when some sheet of the owner has a stored
title that case-insensitively equals the TRIMMED new title.  Titles
containing regex metacharacters follow JS regex semantics instead (a
duplicate title such as `"a+b"` is not detected, an invalid pattern makes
`RegExp` throw into the 500 branch) and are outside this model. -/
theorem claim8_amended (userId sheetName : String) (st : SettingsReq) (d : DataReq)
    (now : Nat) (store : List Schedule)
    (hu : (userId == "") = false) (hs : (sheetName == "") = false) :
    ((store.find? (fun sc => sc.userId == userId && sc.sheetName == sheetName)).isSome = true →
      createSchedule userId "admin" sheetName (some st) (some d) now store
        = some (409, store)) ∧
    (hasRegexMeta (toLowerStr (jsTrim st.title)) = false →
      (store.find? (fun sc =>
          sc.userId == userId && toLowerStr sc.title == toLowerStr (jsTrim st.title))).isSome = true →
      createSchedule userId "admin" sheetName (some st) (some d) now store
        = some (409, store)) := by
  constructor
  · intro hdup
    simp [createSchedule, hu, hs, hdup]
  · intro hmeta hdup
    by_cases hdup1 : (store.find? (fun sc => sc.userId == userId && sc.sheetName == sheetName)).isSome = true
    · simp [createSchedule, hu, hs, hdup1]
    · rw [Bool.not_eq_true] at hdup1
      simp [createSchedule, hu, hs, hdup1, hmeta, hdup]

/-- C8 (witness): a same-owner duplicate `sheetName` and a case-insensitive
trimmed duplicate title (metacharacter-free) are both answered 409 with the
store unchanged. -/
theorem claim8_witness :
    createSchedule "a1" "admin" "s1" (some c8Settings) (some c8Data) 5 [c8Sheet]
      = some (409, [c8Sheet]) ∧
    createSchedule "a1" "admin" "s2" (some { c8Settings with title := "X" }) (some c8Data) 5
        [{ c8Sheet with title := "x" }]
      = some (409, [{ c8Sheet with title := "x" }]) :=
  ⟨(claim8_amended "a1" "s1" c8Settings c8Data 5 [c8Sheet] (by decide) (by decide)).1
      (by decide),
   (claim8_amended "a1" "s2" { c8Settings with title := "X" } c8Data 5
      [{ c8Sheet with title := "x" }] (by decide) (by decide)).2 (by decide) (by decide)⟩

/-! ### C9 — partial update preserves omitted optional fields -/

/-- C9 (confirmed): when the update request omits `teacherUserIds` and
`dayDates`, the stored sheet keeps its previous `teacherUserIds` sequence and
its previous `dayDates` map contents; when no sheet matches
(owner, sheetName) the update is answered 404 with the store unchanged. -/
theorem claim9_partial_update (userId role sheetName : String) (st : SettingsReq)
    (d : DataReq) (now : Nat) (store : List Schedule)
    (hu : (userId == "") = false) (hr : (role == "user") = false)
    (hteach : st.teacherUserIds = none) (hday : st.dayDates = none) :
    (store.find? (fun sc => sc.userId == userId && sc.sheetName == sheetName) = none →
      updateSchedule userId role sheetName (some st) (some d) now store = (404, store)) ∧
    (∀ sched,
      store.find? (fun sc => sc.userId == userId && sc.sheetName == sheetName) = some sched →
      (updateSchedule userId role sheetName (some st) (some d) now store).1 = 200 ∧
      ∃ sched',
        (updateSchedule userId role sheetName (some st) (some d) now store).2.find?
            (fun sc => sc.userId == userId && sc.sheetName == sheetName) = some sched' ∧
        sched'.teacherUserIds = sched.teacherUserIds ∧
        sched'.dayDates.getD [] = sched.dayDates.getD []) := by
  constructor
  · intro hfind
    simp [updateSchedule, hu, hr, hfind]
  · intro sched hfind
    have h200 : updateSchedule userId role sheetName (some st) (some d) now store = (200, replaceFirst (fun sc => sc.userId == userId && sc.sheetName == sheetName) (applyScheduleUpdate st d now sched) store) := by
      simp [updateSchedule, hu, hr, hfind]
    refine ⟨by rw [h200], applyScheduleUpdate st d now sched sched, ?_, ?_, ?_⟩
    · rw [h200]
      have := replaceFirst_find?
        (fun sc : Schedule => sc.userId == userId && sc.sheetName == sheetName)
        (applyScheduleUpdate st d now sched) (fun _ => rfl) store
      simpa [hfind] using this
    · simp [applyScheduleUpdate, hteach]
    · simp [applyScheduleUpdate, hday]

/-- C9 (witness): the owner's update omitting `teacherUserIds` and `dayDates`
answers 200 and the stored sheet keeps `["t1", "t2"]` and its day map. -/
theorem claim9_witness :
    (updateSchedule "a1" "admin" "s1" (some c9Settings) (some c9Data) 7 [c9Sheet]).1 = 200 ∧
    ∃ sched',
      (updateSchedule "a1" "admin" "s1" (some c9Settings) (some c9Data) 7 [c9Sheet]).2.find?
          (fun sc => sc.userId == "a1" && sc.sheetName == "s1") = some sched' ∧
      sched'.teacherUserIds = c9Sheet.teacherUserIds ∧
      sched'.dayDates.getD [] = c9Sheet.dayDates.getD [] :=
  (claim9_partial_update "a1" "admin" "s1" c9Settings c9Data 7 [c9Sheet]
    (by decide) (by decide) rfl rfl).2 c9Sheet (by decide)

/-! ### C10 — a valid token without a stored account cannot write -/

/-- C10 (confirmed): a non-superadmin actor whose userId has no account in
the users collection — for instance, one deleted after the token was issued —
has post creation answered 404 NotFound with nothing inserted, provided the
request is well-formed and the actor is not rate limited first; holding a
valid credential alone is not sufficient to write.  (When such an actor's old
posts are newer than the cooldown, the rate gate answers 429 first — nothing
is inserted in that case either.) -/
theorem claim10_deleted_account (title content userId role : String) (now : Nat)
    (newId : String) (s : BoardState)
    (hrole : (role == "superadmin") = false)
    (ht : (title == "") = false) (hc : (content == "") = false)
    (hrate : rateLimited (lastPostTime s.posts userId) now = false)
    (huser : s.users.find? (fun u => u.userId == userId) = none) :
    createPost title content userId role now newId s = (404, s) := by
  have hrole' : role ≠ "superadmin" := ne_of_beq_false hrole
  simp [createPost, ht, hc, hrole, hrole', hrate, huser]

/-- C10 (witness). -/
theorem claim10_witness :
    createPost "t" "c" "ghost" "admin" 5 "bbbbbbbbbbbb" c10State = (404, c10State) :=
  claim10_deleted_account "t" "c" "ghost" "admin" 5 "bbbbbbbbbbbb" c10State
    (by decide) (by decide) (by decide) (by decide) (by decide)

end XlTable
